import Mathlib

/-!
# Verification of the grid-calculator engine and its config validation

Shallow embedding of `src/grid_calculator.rs`, `src/config.rs` and the
level-list handling of `src/main.rs`. Rust `f64` arithmetic is modelled by
exact rational arithmetic (`ℚ`); the operation order of every state fold is
kept exactly as in the source. Rust `Vec::push` is appending at the end,
`Option<f64>` is `Option ℚ`, and `Result<T, String>` is `Except String T`.
-/

namespace GridCalc

/-- `GridType` from `src/grid_calculator.rs`. -/
inductive GridType where
  | Fixed
  | Average
deriving DecidableEq, Repr

/-- `PositionMode` from `src/grid_calculator.rs`. -/
inductive PositionMode where
  | Fixed
  | CurrentMultiple
  | IncrementMultiple
deriving DecidableEq, Repr

/-- `GridResult` from `src/grid_calculator.rs`. -/
structure GridResult where
  grid_price : ℚ
  position_size : ℚ
  total_position : ℚ
  average_price : ℚ
  total_cost : ℚ
deriving DecidableEq, Repr

/-- `GridCalculator` from `src/grid_calculator.rs`: the five construction
parameters followed by the five mutable state fields. -/
structure GridCalculator where
  initial_price : ℚ
  grid_type : GridType
  position_mode : PositionMode
  base_size : ℚ
  multiplier : ℚ
  current_position : ℚ
  total_cost : ℚ
  average_price : ℚ
  last_increment : ℚ
  grid_history : List GridResult
deriving DecidableEq, Repr

namespace GridCalculator

/-- `GridCalculator::new`. -/
def new (initial_price : ℚ) (grid_type : GridType) (position_mode : PositionMode)
    (base_size : ℚ) (multiplier : ℚ) : GridCalculator :=
  { initial_price := initial_price
    grid_type := grid_type
    position_mode := position_mode
    base_size := base_size
    multiplier := multiplier
    current_position := 0
    total_cost := 0
    average_price := initial_price
    last_increment := 0
    grid_history := [] }

/-- `GridCalculator::calculate_grid`. The Rust method mutates `self` and
returns a `GridResult`; here it returns the result together with the
post-call state. -/
def calculate_grid (self : GridCalculator) (grid_percent : ℚ) :
    GridResult × GridCalculator :=
  let grid_price :=
    match self.grid_type with
    | GridType.Fixed => self.initial_price * (1 - grid_percent / 100)
    | GridType.Average => self.average_price * (1 - grid_percent / 100)
  let position_size :=
    match self.position_mode with
    | PositionMode.Fixed => self.base_size
    | PositionMode.CurrentMultiple =>
        if self.current_position = 0 then self.base_size
        else self.current_position * self.multiplier
    | PositionMode.IncrementMultiple =>
        if self.last_increment = 0 then self.base_size
        else self.last_increment * self.multiplier
  let last_increment := position_size
  let current_position := self.current_position + position_size
  let total_cost := self.total_cost + position_size * grid_price
  let average_price :=
    if current_position > 0 then total_cost / current_position
    else self.average_price
  let result : GridResult :=
    { grid_price := grid_price
      position_size := position_size
      total_position := current_position
      average_price := average_price
      total_cost := total_cost }
  (result,
   { self with
     current_position := current_position
     total_cost := total_cost
     average_price := average_price
     last_increment := last_increment
     grid_history := self.grid_history ++ [result] })

/-- `GridCalculator::reset`. -/
def reset (self : GridCalculator) : GridCalculator :=
  { self with
    current_position := 0
    total_cost := 0
    average_price := self.initial_price
    last_increment := 0
    grid_history := [] }

end GridCalculator

/-- Iterates `calculate_grid` over a list of level percentages in order,
collecting the returned results (this is the loop of
`print_calculation_results` in `src/main.rs`). -/
def runSteps (c : GridCalculator) : List ℚ → List GridResult × GridCalculator
  | [] => ([], c)
  | p :: ps =>
    let step := c.calculate_grid p
    let rest := runSteps step.2 ps
    (step.1 :: rest.1, rest.2)

/-- The size-recurrence of `IncrementMultiple` sizing: given the seed value of
`last_increment`, each produced size is `base_size` when the previous value is
`0` and otherwise the previous value times the multiplier.  This is the
per-step rule of `calculate_grid` read off along a run. -/
def sizeChain (bs m : ℚ) : ℚ → List ℚ → Prop
  | _, [] => True
  | last, s :: rest => s = (if last = 0 then bs else last * m) ∧ sizeChain bs m s rest

/-- `[base]` of `src/config.rs` (`BaseConfig`). -/
structure BaseConfig where
  initial_price : ℚ
  grid_type : String
deriving DecidableEq, Repr

/-- `[grid]` of `src/config.rs` (`GridConfig`). -/
structure GridConfig where
  levels : List ℚ
deriving DecidableEq, Repr

/-- `[position]` of `src/config.rs` (`PositionConfig`). -/
structure PositionConfig where
  mode : String
  base_size : ℚ
  multiplier : Option ℚ
deriving DecidableEq, Repr

/-- `Strategy` of `src/config.rs`. -/
structure Strategy where
  name : String
  initial_price : ℚ
  grid_type : String
  levels : List ℚ
  position_mode : String
  base_size : ℚ
  multiplier : Option ℚ
deriving DecidableEq, Repr

/-- `Config` of `src/config.rs`. -/
structure Config where
  base : BaseConfig
  grid : GridConfig
  position : PositionConfig
  strategies : Option (List Strategy)
deriving DecidableEq, Repr

/-- Does `pat` occur at the head of `s`? (character-list matcher behind the
Rust `str::contains` substring test). -/
def matchesAt : List Char → List Char → Bool
  | [], _ => true
  | _ :: _, [] => false
  | a :: pat, b :: s => a == b && matchesAt pat s

def hasSubstrAux (pat : List Char) : List Char → Bool
  | [] => pat.isEmpty
  | c :: cs => matchesAt pat (c :: cs) || hasSubstrAux pat cs

/-- Rust `s.contains(pat)` on string slices: `pat` occurs somewhere in `s`. -/
def containsSubstr (s pat : String) : Bool := hasSubstrAux pat.data s.data

/-- The level loop shared by `Config::validate` and `Strategy::validate`:
first level outside the open interval `(0, 100)` produces the error built by
`msg`. Quote characters of the original error text are omitted throughout. -/
def checkLevels (msg : ℚ → String) : List ℚ → Except String Unit
  | [] => Except.ok ()
  | l :: ls =>
    if l ≤ 0 ∨ 100 ≤ l then Except.error (msg l) else checkLevels msg ls

/-- `Config::validate` from `src/config.rs`. -/
def Config.validate (c : Config) : Except String Unit :=
  if c.base.grid_type ∉ (["fixed", "average"] : List String) then
    Except.error ("Invalid grid_type: " ++ c.base.grid_type ++ ". Must be fixed or average")
  else if c.position.mode ∉
      (["fixed", "current-multiple", "increment-multiple"] : List String) then
    Except.error ("Invalid position mode: " ++ c.position.mode ++
      ". Must be fixed, current-multiple, or increment-multiple")
  else if containsSubstr c.position.mode "multiple" = true ∧
      c.position.multiplier = none then
    Except.error "Multiplier is required for multiple position modes"
  else if c.grid.levels = [] then
    Except.error "Grid levels cannot be empty"
  else
    checkLevels
      (fun l => "Invalid grid level: " ++ toString l ++ ". Must be between 0 and 100")
      c.grid.levels

/-- `Strategy::validate` from `src/config.rs`. -/
def Strategy.validate (s : Strategy) : Except String Unit :=
  if s.grid_type ∉ (["fixed", "average"] : List String) then
    Except.error ("Invalid grid_type in strategy " ++ s.name ++ ": " ++ s.grid_type ++
      ". Must be fixed or average")
  else if s.position_mode ∉
      (["fixed", "current-multiple", "increment-multiple"] : List String) then
    Except.error ("Invalid position mode in strategy " ++ s.name ++ ": " ++ s.position_mode ++
      ". Must be fixed, current-multiple, or increment-multiple")
  else if containsSubstr s.position_mode "multiple" = true ∧ s.multiplier = none then
    Except.error ("Multiplier is required for strategy " ++ s.name ++
      " with position mode " ++ s.position_mode)
  else if s.levels = [] then
    Except.error ("Grid levels cannot be empty for strategy " ++ s.name)
  else
    checkLevels
      (fun l => "Invalid grid level in strategy " ++ s.name ++ ": " ++ toString l ++
        ". Must be between 0 and 100")
      s.levels

/-- `Strategy::to_config` from `src/config.rs`. -/
def Strategy.to_config (s : Strategy) : Config :=
  { base := { initial_price := s.initial_price, grid_type := s.grid_type }
    grid := { levels := s.levels }
    position := { mode := s.position_mode, base_size := s.base_size,
                  multiplier := s.multiplier }
    strategies := none }

/-- Rust `str::split(sep)` on a single separator character: the list of
tokens between occurrences of `sep`, empty tokens kept. -/
def splitOnChar (sep : Char) : List Char → List (List Char)
  | [] => [[]]
  | c :: cs =>
    match splitOnChar sep cs with
    | [] => [[]]
    | t :: ts => if c = sep then [] :: t :: ts else (c :: t) :: ts

/-- Rust `str::trim`: strip leading and trailing whitespace. -/
def trimChars (s : List Char) : List Char :=
  ((s.dropWhile Char.isWhitespace).reverse.dropWhile Char.isWhitespace).reverse

/-- The ad-hoc level-list handling of the `Calculate` command in
`src/main.rs`: split the argument on commas, trim each token, keep the
tokens the float parser accepts. The Rust `f64` parser itself is the
parameter `parse`; it is not modelled here. -/
def parseLevels (parse : String → Option ℚ) (levels : String) : List ℚ :=
  (splitOnChar ',' levels.data).filterMap (fun t => parse (String.mk (trimChars t)))

/-- Outcome of the level handling of the `Calculate` command: the
`No valid grid levels` failure exactly when the kept-token list is empty,
otherwise the kept tokens. -/
def calculateLevels (parse : String → Option ℚ) (levels : String) :
    Except String (List ℚ) :=
  let grid_levels := parseLevels parse levels
  if grid_levels = [] then Except.error "Error: No valid grid levels provided"
  else Except.ok grid_levels

example :
    ((GridCalculator.new 100 GridType.Fixed PositionMode.Fixed 100 1).calculate_grid
      1).1.grid_price = 99 := by
  norm_num [GridCalculator.new, GridCalculator.calculate_grid]

example :
    ((runSteps (GridCalculator.new 100 GridType.Fixed PositionMode.CurrentMultiple 100 2)
      [1, 2, 3]).1.map GridResult.position_size) = [100, 200, 600] := by
  norm_num [GridCalculator.new, GridCalculator.calculate_grid, runSteps]

/-! ## Structural lemmas about one `calculate_grid` call -/

namespace GridCalculator

lemma step_current_position (c : GridCalculator) (p : ℚ) :
    (c.calculate_grid p).2.current_position =
      c.current_position + (c.calculate_grid p).1.position_size := rfl

lemma step_total_cost (c : GridCalculator) (p : ℚ) :
    (c.calculate_grid p).2.total_cost =
      c.total_cost + (c.calculate_grid p).1.position_size * (c.calculate_grid p).1.grid_price :=
  rfl

lemma step_last_increment (c : GridCalculator) (p : ℚ) :
    (c.calculate_grid p).2.last_increment = (c.calculate_grid p).1.position_size := rfl

lemma step_average_price (c : GridCalculator) (p : ℚ) :
    (c.calculate_grid p).2.average_price =
      if (c.calculate_grid p).2.current_position > 0 then
        (c.calculate_grid p).2.total_cost / (c.calculate_grid p).2.current_position
      else c.average_price := rfl

lemma step_initial_price (c : GridCalculator) (p : ℚ) :
    (c.calculate_grid p).2.initial_price = c.initial_price := rfl

lemma step_grid_type (c : GridCalculator) (p : ℚ) :
    (c.calculate_grid p).2.grid_type = c.grid_type := rfl

lemma step_position_mode (c : GridCalculator) (p : ℚ) :
    (c.calculate_grid p).2.position_mode = c.position_mode := rfl

lemma step_base_size (c : GridCalculator) (p : ℚ) :
    (c.calculate_grid p).2.base_size = c.base_size := rfl

lemma step_multiplier (c : GridCalculator) (p : ℚ) :
    (c.calculate_grid p).2.multiplier = c.multiplier := rfl

lemma step_result_position_size (c : GridCalculator) (p : ℚ) :
    (c.calculate_grid p).1.position_size =
      match c.position_mode with
      | PositionMode.Fixed => c.base_size
      | PositionMode.CurrentMultiple =>
          if c.current_position = 0 then c.base_size
          else c.current_position * c.multiplier
      | PositionMode.IncrementMultiple =>
          if c.last_increment = 0 then c.base_size
          else c.last_increment * c.multiplier := rfl

lemma step_result_grid_price (c : GridCalculator) (p : ℚ) :
    (c.calculate_grid p).1.grid_price =
      match c.grid_type with
      | GridType.Fixed => c.initial_price * (1 - p / 100)
      | GridType.Average => c.average_price * (1 - p / 100) := rfl

end GridCalculator

lemma runSteps_nil (c : GridCalculator) : runSteps c [] = ([], c) := rfl

lemma runSteps_cons (c : GridCalculator) (p : ℚ) (ps : List ℚ) :
    runSteps c (p :: ps) =
      ((c.calculate_grid p).1 :: (runSteps (c.calculate_grid p).2 ps).1,
       (runSteps (c.calculate_grid p).2 ps).2) := rfl

/-- `runSteps` never changes the five construction parameters. -/
lemma runSteps_params (ps : List ℚ) (c : GridCalculator) :
    (runSteps c ps).2.initial_price = c.initial_price ∧
    (runSteps c ps).2.grid_type = c.grid_type ∧
    (runSteps c ps).2.position_mode = c.position_mode ∧
    (runSteps c ps).2.base_size = c.base_size ∧
    (runSteps c ps).2.multiplier = c.multiplier := by
  induction ps generalizing c with
  | nil => exact ⟨rfl, rfl, rfl, rfl, rfl⟩
  | cons p ps ih =>
    simpa [runSteps_cons, GridCalculator.step_initial_price, GridCalculator.step_grid_type,
      GridCalculator.step_position_mode, GridCalculator.step_base_size,
      GridCalculator.step_multiplier] using ih (c.calculate_grid p).2

/-- Accumulation lemma behind claim C1: one run adds, to `current_position`
and `total_cost`, the sums of the returned sizes and costs. -/
lemma runSteps_accum (ps : List ℚ) (c : GridCalculator) :
    (runSteps c ps).2.current_position =
      c.current_position + (((runSteps c ps).1.map GridResult.position_size).sum) ∧
    (runSteps c ps).2.total_cost =
      c.total_cost + (((runSteps c ps).1.map
        (fun r => r.grid_price * r.position_size)).sum) := by
  induction ps generalizing c with
  | nil => simp [runSteps_nil]
  | cons p ps ih =>
    obtain ⟨h1, h2⟩ := ih (c.calculate_grid p).2
    refine ⟨?_, ?_⟩
    · simp only [runSteps_cons, List.map_cons, List.sum_cons, h1,
        GridCalculator.step_current_position]
      ring
    · simp only [runSteps_cons, List.map_cons, List.sum_cons, h2,
        GridCalculator.step_total_cost]
      ring

/-- C1. After any run of `calculate_grid` calls from a freshly constructed
engine, `current_position` is the sum of the returned `position_size` values
and `total_cost` is the sum of `grid_price * position_size` over the returned
results. -/
theorem C1_state_equals_history_sums (ip : ℚ) (gt : GridType) (pm : PositionMode)
    (bs m : ℚ) (levels : List ℚ) :
    (runSteps (GridCalculator.new ip gt pm bs m) levels).2.current_position =
      (((runSteps (GridCalculator.new ip gt pm bs m) levels).1.map
        GridResult.position_size).sum) ∧
    (runSteps (GridCalculator.new ip gt pm bs m) levels).2.total_cost =
      (((runSteps (GridCalculator.new ip gt pm bs m) levels).1.map
        (fun r => r.grid_price * r.position_size)).sum) := by
  obtain ⟨h1, h2⟩ := runSteps_accum levels (GridCalculator.new ip gt pm bs m)
  constructor
  · simpa [GridCalculator.new] using h1
  · simpa [GridCalculator.new] using h2

/-- The average-price invariant `0 < current_position → average_price =
total_cost / current_position` is preserved by any run. -/
lemma runSteps_avg_inv (ps : List ℚ) (c : GridCalculator)
    (h : 0 < c.current_position →
      c.average_price = c.total_cost / c.current_position) :
    0 < (runSteps c ps).2.current_position →
      (runSteps c ps).2.average_price =
        (runSteps c ps).2.total_cost / (runSteps c ps).2.current_position := by
  induction ps generalizing c with
  | nil => exact h
  | cons p ps ih =>
    simp only [runSteps_cons]
    refine ih (c.calculate_grid p).2 ?_
    intro hpos
    rw [GridCalculator.step_average_price, if_pos hpos]

/-- C2 (amended). After any run from a fresh engine, whenever
`current_position > 0` the running average equals `total_cost /
current_position`; and at construction `current_position = 0` and
`average_price = initial_price`. -/
theorem C2_average_price_invariant (ip : ℚ) (gt : GridType) (pm : PositionMode)
    (bs m : ℚ) (levels : List ℚ) :
    (0 < (runSteps (GridCalculator.new ip gt pm bs m) levels).2.current_position →
      (runSteps (GridCalculator.new ip gt pm bs m) levels).2.average_price =
        (runSteps (GridCalculator.new ip gt pm bs m) levels).2.total_cost /
          (runSteps (GridCalculator.new ip gt pm bs m) levels).2.current_position) ∧
    (GridCalculator.new ip gt pm bs m).current_position = 0 ∧
    (GridCalculator.new ip gt pm bs m).average_price = ip := by
  refine ⟨runSteps_avg_inv levels _ ?_, rfl, rfl⟩
  intro h0
  simp [GridCalculator.new] at h0

/-- Witness for C2: on `new(100, Fixed, Fixed, 100, 1)` after one step at 1%,
the position is positive and the average equals cost over position. -/
theorem C2_average_price_invariant_witness :
    0 < (runSteps (GridCalculator.new 100 GridType.Fixed PositionMode.Fixed 100 1)
        [1]).2.current_position ∧
    (runSteps (GridCalculator.new 100 GridType.Fixed PositionMode.Fixed 100 1)
        [1]).2.average_price =
      (runSteps (GridCalculator.new 100 GridType.Fixed PositionMode.Fixed 100 1)
        [1]).2.total_cost /
      (runSteps (GridCalculator.new 100 GridType.Fixed PositionMode.Fixed 100 1)
        [1]).2.current_position := by
  have hpos : 0 < (runSteps (GridCalculator.new 100 GridType.Fixed PositionMode.Fixed 100 1)
      [1]).2.current_position := by
    norm_num [runSteps, GridCalculator.new, GridCalculator.calculate_grid]
  exact ⟨hpos, (C2_average_price_invariant 100 GridType.Fixed PositionMode.Fixed 100 1 [1]).1 hpos⟩

/-- Counterexample to C2 as stated: with a negative multiplier under
`CurrentMultiple`, two steps bring `current_position` back to `0` while
`average_price` stays at the previously computed average `99`, not at the
`initial_price` `100`. -/
theorem C2_counterexample :
    (runSteps (GridCalculator.new 100 GridType.Fixed PositionMode.CurrentMultiple 100 (-1))
        [1, 2]).2.current_position = 0 ∧
    (runSteps (GridCalculator.new 100 GridType.Fixed PositionMode.CurrentMultiple 100 (-1))
        [1, 2]).2.average_price = 99 ∧
    (runSteps (GridCalculator.new 100 GridType.Fixed PositionMode.CurrentMultiple 100 (-1))
        [1, 2]).2.initial_price = 100 ∧
    ¬ ((runSteps (GridCalculator.new 100 GridType.Fixed PositionMode.CurrentMultiple 100 (-1))
        [1, 2]).2.current_position = 0 →
       (runSteps (GridCalculator.new 100 GridType.Fixed PositionMode.CurrentMultiple 100 (-1))
        [1, 2]).2.average_price =
       (runSteps (GridCalculator.new 100 GridType.Fixed PositionMode.CurrentMultiple 100 (-1))
        [1, 2]).2.initial_price) := by
  norm_num [runSteps, GridCalculator.new, GridCalculator.calculate_grid]

/-- C3. Under the `Average` basis each call prices the grid off the
pre-call running average; concretely, on `new(100, Average, Fixed, 100, 1)`
the first `step(1.0)` returns `grid_price = 99` and `average_price = 99`,
and the second `step(1.0)` returns `grid_price = 99 * 0.99 = 98.01`. -/
theorem C3_average_basis_uses_prestep_average :
    (∀ (c : GridCalculator) (p : ℚ), c.grid_type = GridType.Average →
      (c.calculate_grid p).1.grid_price = c.average_price * (1 - p / 100)) ∧
    ((GridCalculator.new 100 GridType.Average PositionMode.Fixed 100 1).calculate_grid
        1).1.grid_price = 99 ∧
    ((GridCalculator.new 100 GridType.Average PositionMode.Fixed 100 1).calculate_grid
        1).1.average_price = 99 ∧
    ((((GridCalculator.new 100 GridType.Average PositionMode.Fixed 100 1).calculate_grid
        1).2).calculate_grid 1).1.grid_price = 99 * 0.99 ∧
    (99 * 0.99 : ℚ) = 98.01 := by
  refine ⟨?_, ?_, ?_, ?_, by norm_num⟩
  · intro c p h
    rw [GridCalculator.step_result_grid_price, h]
  · norm_num [GridCalculator.new, GridCalculator.calculate_grid]
  · norm_num [GridCalculator.new, GridCalculator.calculate_grid]
  · norm_num [GridCalculator.new, GridCalculator.calculate_grid]

/-- Witness for C3: the general pre-step-average rule applied to the
concrete fresh `Average`-basis engine. -/
theorem C3_average_basis_uses_prestep_average_witness :
    ((GridCalculator.new 100 GridType.Average PositionMode.Fixed 100 1).calculate_grid
        1).1.grid_price =
      (GridCalculator.new 100 GridType.Average PositionMode.Fixed 100 1).average_price *
        (1 - 1 / 100) :=
  C3_average_basis_uses_prestep_average.1
    (GridCalculator.new 100 GridType.Average PositionMode.Fixed 100 1) 1 rfl

/-- A `calculate_grid` call followed by `reset` lands in the same state as
`reset` alone: every field the call touches is overwritten. -/
lemma reset_step (c : GridCalculator) (p : ℚ) :
    (c.calculate_grid p).2.reset = c.reset := rfl

lemma reset_runSteps (ps : List ℚ) (c : GridCalculator) :
    (runSteps c ps).2.reset = c.reset := by
  induction ps generalizing c with
  | nil => rfl
  | cons p ps ih => simpa [runSteps_cons, reset_step] using ih (c.calculate_grid p).2

lemma reset_new (ip : ℚ) (gt : GridType) (pm : PositionMode) (bs m : ℚ) :
    (GridCalculator.new ip gt pm bs m).reset = GridCalculator.new ip gt pm bs m := rfl

/-- C5. `reset` after any run zeroes `current_position`, `total_cost` and
`last_increment`, restores `average_price = initial_price`, clears the
history, keeps the five construction parameters, and makes the whole state
equal to a freshly constructed engine, so the next `calculate_grid` call
agrees with the first call on a fresh engine at every level. -/
theorem C5_reset_restores_fresh_engine (ip : ℚ) (gt : GridType) (pm : PositionMode)
    (bs m : ℚ) (levels : List ℚ) :
    (runSteps (GridCalculator.new ip gt pm bs m) levels).2.reset.current_position = 0 ∧
    (runSteps (GridCalculator.new ip gt pm bs m) levels).2.reset.total_cost = 0 ∧
    (runSteps (GridCalculator.new ip gt pm bs m) levels).2.reset.last_increment = 0 ∧
    (runSteps (GridCalculator.new ip gt pm bs m) levels).2.reset.average_price = ip ∧
    (runSteps (GridCalculator.new ip gt pm bs m) levels).2.reset.grid_history = [] ∧
    (runSteps (GridCalculator.new ip gt pm bs m) levels).2.reset.initial_price = ip ∧
    (runSteps (GridCalculator.new ip gt pm bs m) levels).2.reset.grid_type = gt ∧
    (runSteps (GridCalculator.new ip gt pm bs m) levels).2.reset.position_mode = pm ∧
    (runSteps (GridCalculator.new ip gt pm bs m) levels).2.reset.base_size = bs ∧
    (runSteps (GridCalculator.new ip gt pm bs m) levels).2.reset.multiplier = m ∧
    (runSteps (GridCalculator.new ip gt pm bs m) levels).2.reset =
      GridCalculator.new ip gt pm bs m ∧
    ∀ lvl : ℚ,
      (runSteps (GridCalculator.new ip gt pm bs m) levels).2.reset.calculate_grid lvl =
        (GridCalculator.new ip gt pm bs m).calculate_grid lvl := by
  have h : (runSteps (GridCalculator.new ip gt pm bs m) levels).2.reset =
      GridCalculator.new ip gt pm bs m := by
    rw [reset_runSteps, reset_new]
  rw [h]
  refine ⟨rfl, rfl, rfl, rfl, rfl, rfl, rfl, rfl, rfl, rfl, rfl, fun lvl => rfl⟩

/-- Grid price of one call under the `Fixed` basis, for any state. -/
lemma fixed_grid_price (c : GridCalculator) (p : ℚ) (h : c.grid_type = GridType.Fixed) :
    (c.calculate_grid p).1.grid_price = c.initial_price * (1 - p / 100) := by
  rw [GridCalculator.step_result_grid_price, h]

/-- C6. Under the `Fixed` grid-price basis the price returned for a level is
`initial_price * (1 - level/100)`, whatever calls happened before. -/
theorem C6_fixed_basis_history_independent (ip : ℚ) (pm : PositionMode)
    (bs m : ℚ) (levels : List ℚ) (p : ℚ) :
    (((runSteps (GridCalculator.new ip GridType.Fixed pm bs m) levels).2).calculate_grid
        p).1.grid_price = ip * (1 - p / 100) := by
  obtain ⟨hip, hgt, -, -, -⟩ :=
    runSteps_params levels (GridCalculator.new ip GridType.Fixed pm bs m)
  rw [fixed_grid_price _ p (by rw [hgt]; rfl), hip]
  rfl

/-- Under `IncrementMultiple` sizing, the sizes returned along any run obey
the seeded recurrence `sizeChain`, started at the `last_increment` of the state. -/
lemma runSteps_sizeChain (ps : List ℚ) (c : GridCalculator)
    (h : c.position_mode = PositionMode.IncrementMultiple) :
    sizeChain c.base_size c.multiplier c.last_increment
      ((runSteps c ps).1.map GridResult.position_size) := by
  induction ps generalizing c with
  | nil => trivial
  | cons p ps ih =>
    simp only [runSteps_cons, List.map_cons]
    refine ⟨?_, ?_⟩
    · rw [GridCalculator.step_result_position_size, h]
    · have hrec := ih (c.calculate_grid p).2
        (by rw [GridCalculator.step_position_mode, h])
      rw [GridCalculator.step_base_size, GridCalculator.step_multiplier,
        GridCalculator.step_last_increment] at hrec
      exact hrec

/-- With a nonzero multiplier, any two adjacent values produced by the
`sizeChain` recurrence are in ratio `m`, whatever the seed. -/
lemma sizeChain_adjacent (bs m : ℚ) (hm : m ≠ 0) :
    ∀ (pre : List ℚ) (last : ℚ) (l : List ℚ), sizeChain bs m last l →
      ∀ (a b : ℚ) (post : List ℚ), l = pre ++ a :: b :: post → b = a * m := by
  intro pre
  induction pre with
  | nil =>
    intro last l hchain a b post hl
    subst hl
    obtain ⟨ha, hb, -⟩ := hchain
    by_cases hA : a = 0
    · rw [hb, if_pos hA, hA, zero_mul]
      by_cases hL : last = 0
      · rw [if_pos hL] at ha
        rw [← ha]
        exact hA
      · rw [if_neg hL] at ha
        exfalso
        have hz : last * m = 0 := by rw [← ha]; exact hA
        rcases mul_eq_zero.mp hz with h | h
        · exact hL h
        · exact hm h
    · rw [hb, if_neg hA]
  | cons x pre ih =>
    intro last l hchain a b post hl
    cases l with
    | nil => exact absurd hl (by simp)
    | cons y l₂ =>
      obtain ⟨-, hrest⟩ := hchain
      simp only [List.cons_append] at hl
      injection hl with h1 h2
      exact ih y l₂ hrest a b post h2

/-- C4 (amended). Under `IncrementMultiple` sizing with a nonzero multiplier
`m`, any two consecutive results of a run have sizes in ratio `m`. -/
theorem C4_increment_multiple_ratio (ip : ℚ) (gt : GridType) (bs m : ℚ)
    (levels : List ℚ) (hm : m ≠ 0) (pre : List GridResult) (a b : GridResult)
    (post : List GridResult)
    (hsplit : (runSteps (GridCalculator.new ip gt PositionMode.IncrementMultiple bs m)
      levels).1 = pre ++ a :: b :: post) :
    b.position_size = a.position_size * m := by
  have hchain := runSteps_sizeChain levels
    (GridCalculator.new ip gt PositionMode.IncrementMultiple bs m) rfl
  refine sizeChain_adjacent bs m hm (pre.map GridResult.position_size) 0 _ hchain
    a.position_size b.position_size (post.map GridResult.position_size) ?_
  rw [hsplit]
  simp

/-- Witness for C4: on `new(100, Fixed, IncrementMultiple, 100, 2)` the first
two results have sizes `100` and `200 = 100 * 2`. -/
theorem C4_increment_multiple_ratio_witness :
    (2 : ℚ) ≠ 0 ∧
    (GridResult.mk 98 200 300 (295/3) 29500).position_size =
      (GridResult.mk 99 100 100 99 9900).position_size * 2 := by
  refine ⟨by norm_num, C4_increment_multiple_ratio 100 GridType.Fixed 100 2 [1, 2]
    (by norm_num) [] (GridResult.mk 99 100 100 99 9900)
    (GridResult.mk 98 200 300 (295/3) 29500) [] ?_⟩
  norm_num [runSteps, GridCalculator.new, GridCalculator.calculate_grid]

/-- Counterexample to C4 as stated: with multiplier `0` the second size is
`0`, so the third call reseeds from `base_size` and returns `100`, not
`0 * 0 = 0`. -/
theorem C4_counterexample :
    ((runSteps (GridCalculator.new 100 GridType.Fixed PositionMode.IncrementMultiple 100 0)
        [1, 2, 3]).1.map GridResult.position_size) = [100, 0, 100] ∧
    ¬ (∀ (pre : List ℚ) (a b : ℚ) (post : List ℚ),
        ((runSteps (GridCalculator.new 100 GridType.Fixed PositionMode.IncrementMultiple 100 0)
          [1, 2, 3]).1.map GridResult.position_size) = pre ++ a :: b :: post →
        b = a * 0) := by
  have hmap : ((runSteps (GridCalculator.new 100 GridType.Fixed
      PositionMode.IncrementMultiple 100 0) [1, 2, 3]).1.map GridResult.position_size) =
      [100, 0, 100] := by
    norm_num [runSteps, GridCalculator.new, GridCalculator.calculate_grid]
  refine ⟨hmap, fun h => ?_⟩
  have hbad := h [100] 0 100 [] (by rw [hmap]; rfl)
  norm_num at hbad

/-- The level loop accepts exactly the lists whose members all lie strictly
between `0` and `100`, whatever error text is used. -/
lemma checkLevels_ok_iff (msg : ℚ → String) (ls : List ℚ) :
    checkLevels msg ls = Except.ok () ↔ ∀ l ∈ ls, 0 < l ∧ l < 100 := by
  induction ls with
  | nil => simp [checkLevels]
  | cons l ls ih =>
    by_cases h : l ≤ 0 ∨ 100 ≤ l
    · simp only [checkLevels, if_pos h]
      constructor
      · intro hc
        exact Except.noConfusion hc
      · intro hall
        exfalso
        have hl := hall l (List.mem_cons_self l ls)
        rcases h with h | h
        · exact absurd hl.1 (not_lt.mpr h)
        · exact absurd hl.2 (not_lt.mpr h)
    · have h2 := h
      push_neg at h2
      simp only [checkLevels, if_neg h, ih]
      constructor
      · intro hall x hx
        rcases List.mem_cons.mp hx with rfl | hx
        · exact h2
        · exact hall x hx
      · intro hall x hx
        exact hall x (List.mem_cons_of_mem l hx)

/-- Characterization of `Config::validate`: `Ok` exactly when the two basis
strings are in range, a multiplier accompanies a "multiple" mode, and the
level list is non-empty with every member strictly inside `(0, 100)`. -/
lemma config_validate_ok_iff (c : Config) :
    c.validate = Except.ok () ↔
      c.base.grid_type ∈ (["fixed", "average"] : List String) ∧
      c.position.mode ∈
        (["fixed", "current-multiple", "increment-multiple"] : List String) ∧
      (containsSubstr c.position.mode "multiple" = true →
        c.position.multiplier ≠ none) ∧
      c.grid.levels ≠ [] ∧
      (∀ l ∈ c.grid.levels, 0 < l ∧ l < 100) := by
  unfold Config.validate
  by_cases hgt : c.base.grid_type ∈ (["fixed", "average"] : List String)
  · rw [if_neg (not_not_intro hgt)]
    by_cases hmode : c.position.mode ∈
        (["fixed", "current-multiple", "increment-multiple"] : List String)
    · rw [if_neg (not_not_intro hmode)]
      by_cases hmul : containsSubstr c.position.mode "multiple" = true ∧
          c.position.multiplier = none
      · rw [if_pos hmul]
        exact iff_of_false (fun hc => Except.noConfusion hc)
          (fun hc => (hc.2.2.1 hmul.1) hmul.2)
      · rw [if_neg hmul]
        by_cases hne : c.grid.levels = []
        · rw [if_pos hne]
          exact iff_of_false (fun hc => Except.noConfusion hc)
            (fun hc => hc.2.2.2.1 hne)
        · rw [if_neg hne, checkLevels_ok_iff]
          constructor
          · intro hlv
            exact ⟨hgt, hmode, fun hcm hmn => hmul ⟨hcm, hmn⟩, hne, hlv⟩
          · intro hc
            exact hc.2.2.2.2
    · rw [if_pos hmode]
      exact iff_of_false (fun hc => Except.noConfusion hc)
        (fun hc => hmode hc.2.1)
  · rw [if_pos hgt]
    exact iff_of_false (fun hc => Except.noConfusion hc) (fun hc => hgt hc.1)

/-- Characterization of `Strategy::validate`: same conditions as
`Config::validate`, on the own fields of the strategy. -/
lemma strategy_validate_ok_iff (s : Strategy) :
    s.validate = Except.ok () ↔
      s.grid_type ∈ (["fixed", "average"] : List String) ∧
      s.position_mode ∈
        (["fixed", "current-multiple", "increment-multiple"] : List String) ∧
      (containsSubstr s.position_mode "multiple" = true → s.multiplier ≠ none) ∧
      s.levels ≠ [] ∧
      (∀ l ∈ s.levels, 0 < l ∧ l < 100) := by
  unfold Strategy.validate
  by_cases hgt : s.grid_type ∈ (["fixed", "average"] : List String)
  · rw [if_neg (not_not_intro hgt)]
    by_cases hmode : s.position_mode ∈
        (["fixed", "current-multiple", "increment-multiple"] : List String)
    · rw [if_neg (not_not_intro hmode)]
      by_cases hmul : containsSubstr s.position_mode "multiple" = true ∧
          s.multiplier = none
      · rw [if_pos hmul]
        exact iff_of_false (fun hc => Except.noConfusion hc)
          (fun hc => (hc.2.2.1 hmul.1) hmul.2)
      · rw [if_neg hmul]
        by_cases hne : s.levels = []
        · rw [if_pos hne]
          exact iff_of_false (fun hc => Except.noConfusion hc)
            (fun hc => hc.2.2.2.1 hne)
        · rw [if_neg hne, checkLevels_ok_iff]
          constructor
          · intro hlv
            exact ⟨hgt, hmode, fun hcm hmn => hmul ⟨hcm, hmn⟩, hne, hlv⟩
          · intro hc
            exact hc.2.2.2.2
    · rw [if_pos hmode]
      exact iff_of_false (fun hc => Except.noConfusion hc)
        (fun hc => hmode hc.2.1)
  · rw [if_pos hgt]
    exact iff_of_false (fun hc => Except.noConfusion hc) (fun hc => hgt hc.1)

/-- A one-level `fixed`/`fixed` configuration passes `Config::validate`
whatever its `initial_price` is. -/
lemma validate_accepts_any_initial_price (p : ℚ) :
    (Config.mk (BaseConfig.mk p "fixed") (GridConfig.mk [1])
      (PositionConfig.mk "fixed" 100 none) none).validate = Except.ok () := by
  unfold Config.validate
  rw [if_neg (not_not_intro (by decide :
    ("fixed" : String) ∈ (["fixed", "average"] : List String)))]
  rw [if_neg (not_not_intro (by decide : ("fixed" : String) ∈
    (["fixed", "current-multiple", "increment-multiple"] : List String)))]
  rw [if_neg (by decide :
    ¬ (containsSubstr "fixed" "multiple" = true ∧
       (none : Option ℚ) = none))]
  rw [if_neg (by simp : ¬ ([(1 : ℚ)] = []))]
  have : ∀ l ∈ [(1 : ℚ)], 0 < l ∧ l < 100 := by
    intro l hl
    simp only [List.mem_singleton] at hl
    subst hl
    norm_num
  exact (checkLevels_ok_iff _ _).mpr this

/-- C7 (amended). `Config::validate` imposes no condition on
`initial_price`: its verdict is unchanged under any replacement of that
field, and an otherwise-valid configuration is accepted for every
`initial_price`, non-positive values included. -/
theorem C7_validate_ignores_initial_price :
    (∀ (c : Config) (p : ℚ),
      Config.validate
        { c with base := { c.base with initial_price := p } } = c.validate) ∧
    (∀ p : ℚ,
      (Config.mk (BaseConfig.mk p "fixed") (GridConfig.mk [1])
        (PositionConfig.mk "fixed" 100 none) none).validate = Except.ok ()) :=
  ⟨fun _ _ => rfl, validate_accepts_any_initial_price⟩

/-- Counterexample to C7 as stated: a configuration with
`initial_price = -1` passes `Config::validate`. -/
theorem C7_counterexample :
    (Config.mk (BaseConfig.mk (-1) "fixed") (GridConfig.mk [1])
      (PositionConfig.mk "fixed" 100 none) none).validate = Except.ok () ∧
    ¬ (0 < (Config.mk (BaseConfig.mk (-1) "fixed") (GridConfig.mk [1])
      (PositionConfig.mk "fixed" 100 none) none).base.initial_price) :=
  ⟨validate_accepts_any_initial_price (-1), by norm_num⟩

/-- C8. `Config::validate` returns `Ok` exactly under the five documented
conditions, and a config whose mode is `current-multiple` with no multiplier
(and a valid grid type) is rejected with the missing-multiplier error. -/
theorem C8_config_validate_characterization :
    (∀ c : Config, c.validate = Except.ok () ↔
      c.base.grid_type ∈ (["fixed", "average"] : List String) ∧
      c.position.mode ∈
        (["fixed", "current-multiple", "increment-multiple"] : List String) ∧
      (containsSubstr c.position.mode "multiple" = true →
        c.position.multiplier ≠ none) ∧
      c.grid.levels ≠ [] ∧
      (∀ l ∈ c.grid.levels, 0 < l ∧ l < 100)) ∧
    (∀ c : Config,
      c.base.grid_type ∈ (["fixed", "average"] : List String) →
      c.position.mode = "current-multiple" →
      c.position.multiplier = none →
      c.validate =
        Except.error "Multiplier is required for multiple position modes") := by
  refine ⟨fun c => config_validate_ok_iff c, fun c hgt hmode hmul => ?_⟩
  unfold Config.validate
  rw [if_neg (not_not_intro hgt), hmode]
  rw [if_neg (not_not_intro (by decide : ("current-multiple" : String) ∈
    (["fixed", "current-multiple", "increment-multiple"] : List String)))]
  rw [if_pos ⟨by decide, hmul⟩]

/-- Witness for C8: the concrete scenario-D configuration is rejected with
the missing-multiplier message. -/
theorem C8_config_validate_characterization_witness :
    (Config.mk (BaseConfig.mk 100 "fixed") (GridConfig.mk [1, 2, 3])
      (PositionConfig.mk "current-multiple" 100 none) none).validate =
      Except.error "Multiplier is required for multiple position modes" :=
  C8_config_validate_characterization.2
    (Config.mk (BaseConfig.mk 100 "fixed") (GridConfig.mk [1, 2, 3])
      (PositionConfig.mk "current-multiple" 100 none) none)
    (by decide) rfl rfl

/-- C10. `Strategy::validate` succeeds exactly when `Config::validate`
succeeds on `to_config`, and `to_config` copies all five parameter fields
verbatim. -/
theorem C10_strategy_validate_agrees_with_config (s : Strategy) :
    (s.validate = Except.ok () ↔ s.to_config.validate = Except.ok ()) ∧
    s.to_config.base.initial_price = s.initial_price ∧
    s.to_config.base.grid_type = s.grid_type ∧
    s.to_config.grid.levels = s.levels ∧
    s.to_config.position.mode = s.position_mode ∧
    s.to_config.position.base_size = s.base_size ∧
    s.to_config.position.multiplier = s.multiplier := by
  refine ⟨?_, rfl, rfl, rfl, rfl, rfl, rfl⟩
  rw [strategy_validate_ok_iff, config_validate_ok_iff]
  exact Iff.rfl

/-- Witness for C10: a concrete valid strategy validates, and so does its
converted configuration, through the equivalence. -/
theorem C10_strategy_validate_agrees_with_config_witness :
    (Strategy.mk "main" 100 "fixed" [1] "fixed" 100 none).to_config.validate =
      Except.ok () :=
  (C10_strategy_validate_agrees_with_config
    (Strategy.mk "main" 100 "fixed" [1] "fixed" 100 none)).1.mp
    (by
      rw [strategy_validate_ok_iff]
      refine ⟨by decide, by decide, by decide, by simp, ?_⟩
      intro l hl
      simp only [List.mem_singleton] at hl
      subst hl
      norm_num)

/-- C9. The level handling of the `Calculate` command drops unparseable tokens
individually, fails with the no-valid-levels error exactly when no token
parses, and accepts a list with some malformed tokens as the sublist of its
parseable tokens; concretely `"1,abc,3"` yields `[1, 3]`. -/
theorem C9_cli_level_parsing (parse : String → Option ℚ) (s : String) :
    (calculateLevels parse s = Except.error "Error: No valid grid levels provided" ↔
      ∀ t ∈ splitOnChar ',' s.data, parse (String.mk (trimChars t)) = none) ∧
    (∀ l, calculateLevels parse s = Except.ok l →
      l = (splitOnChar ',' s.data).filterMap
        (fun t => parse (String.mk (trimChars t)))) ∧
    (parse "1" = some 1 → parse "abc" = none → parse "3" = some 3 →
      calculateLevels parse "1,abc,3" = Except.ok [1, 3]) := by
  refine ⟨?_, ?_, ?_⟩
  · by_cases he : parseLevels parse s = []
    · have herr : calculateLevels parse s =
          Except.error "Error: No valid grid levels provided" := by
        simp only [calculateLevels, if_pos he]
      rw [herr]
      have hall : ∀ t ∈ splitOnChar ',' s.data,
          parse (String.mk (trimChars t)) = none := by
        simp only [parseLevels] at he
        exact List.filterMap_eq_nil_iff.mp he
      exact ⟨fun _ => hall, fun _ => rfl⟩
    · have hok : calculateLevels parse s = Except.ok (parseLevels parse s) := by
        simp only [calculateLevels, if_neg he]
      rw [hok]
      refine iff_of_false (fun hc => Except.noConfusion hc) (fun hall => he ?_)
      simp only [parseLevels]
      exact List.filterMap_eq_nil_iff.mpr hall
  · intro l hl
    simp only [calculateLevels] at hl
    by_cases he : parseLevels parse s = []
    · rw [if_pos he] at hl
      exact Except.noConfusion hl
    · rw [if_neg he] at hl
      injection hl with hl
      rw [← hl]
      rfl
  · intro h1 ha h3
    have hsplit : splitOnChar ',' "1,abc,3".data = ["1".data, "abc".data, "3".data] :=
      by decide
    have ht1 : String.mk (trimChars "1".data) = "1" := by decide
    have hta : String.mk (trimChars "abc".data) = "abc" := by decide
    have ht3 : String.mk (trimChars "3".data) = "3" := by decide
    have hlv : parseLevels parse "1,abc,3" = [1, 3] := by
      unfold parseLevels
      rw [hsplit, List.filterMap_cons, List.filterMap_cons, List.filterMap_cons,
        List.filterMap_nil, ht1, hta, ht3, h1, ha, h3]
    simp only [calculateLevels, hlv]
    rfl

/-- Witness for C9: the concrete mixed list `"1,abc,3"` under a
parser accepting exactly `"1"` and `"3"` is accepted as `[1, 3]`. -/
theorem C9_cli_level_parsing_witness :
    calculateLevels
      (fun t => if t = "1" then some 1 else if t = "3" then some 3 else none)
      "1,abc,3" = Except.ok [1, 3] :=
  (C9_cli_level_parsing
    (fun t => if t = "1" then some 1 else if t = "3" then some 3 else none)
    "1,abc,3").2.2 (by decide) (by decide) (by decide)

end GridCalc
